import Mathlib

/-!
# Verification of the structured-message codec and socket basis

Shallow embedding of the schema-validation / build code of
`src/app/MessageDef/AttributeStatusIB.cpp`,
`src/app/MessageDef/WriteResponseMessage.cpp` and of
`src/system/WatchableSocket.h`, with theorems settling the spec claims
about them.

The TLV cursor primitives (`TLV::TLVReader` / `TLV::TLVWriter`) and the
nested message types (`AttributePathIB`, `StatusIB`, `AttributeStatusIBs`)
are not part of the sampled sources; they are modelled from the spec
(section 2 item 1 and section 4.1) as a tree of tagged elements: a
forward-only reader over such a tree visits the elements of one nesting
level in order, and entering a container yields its child list.  Encoded
buffers are therefore well-formed by construction; truncation errors are
out of the model.
-/

namespace Chip

/-- Error codes of the `CHIP_ERROR` values that appear in the sampled
sources (plus the not-found code used by `FindElementWithTag`). -/
inductive ChipError where
  | noError
  | endOfTLV
  | invalidTLVTag
  | wrongTLVType
  | tlvTagNotFound
  | imMalformedWriteResponseMessage
  deriving DecidableEq, Repr

/-- TLV tags: context tags (small numbers scoped to the enclosing
structure), the anonymous tag (array members), and profile-specific tags
(the non-context form). -/
inductive TLVTag where
  | context (n : Nat)
  | anonymous
  | profile (profileId : Nat) (n : Nat)
  deriving DecidableEq, Repr

/-- Container types distinguished by the TLV cursor. -/
inductive TLVContainerType where
  | structType
  | arrayType
  | listType
  deriving DecidableEq, Repr

/-- Modelled from the spec: a TLV element is either a primitive (an
unsigned integer suffices for the sampled schemas) or a container holding
a list of child elements.  This is the self-describing tagged tree the
binary cursor primitives read and write. -/
inductive TLVElement where
  | uintVal (tag : TLVTag) (v : Nat)
  | container (tag : TLVTag) (ty : TLVContainerType) (elems : List TLVElement)

namespace TLVElement

/-- Tag of an element, as `TLVReader::GetTag` returns it. -/
def getTag : TLVElement → TLVTag
  | uintVal t _ => t
  | container t _ _ => t

end TLVElement

/-- Translation of `TLV::IsContextTag`. -/
def IsContextTag : TLVTag → Bool
  | .context _ => true
  | _ => false

/-- Translation of `TLV::TagNumFromTag` (the tag number field). -/
def TagNumFromTag : TLVTag → Nat
  | .context n => n
  | .anonymous => 0
  | .profile _ n => n

/-- Translation of `TLVReader::FindElementWithTag`: linear scan of the
elements at the current depth for the first one carrying the given tag;
absent gives the generic not-found error. -/
def FindElementWithTag (t : TLVTag) : List TLVElement → Except ChipError TLVElement
  | [] => .error .tlvTagNotFound
  | e :: rest => if e.getTag = t then .ok e else FindElementWithTag t rest

end Chip

namespace Chip

namespace AttributeStatusIB

/-- Context-tag numbers of `AttributeStatusIB` (`Tag::kPath`,
`Tag::kErrorStatus`).  Modelled from the spec: the header fixing the
numeric values is outside the sampled sources; the spec says tag values
are fixed by schema, so the concrete small numbers 0 and 1 are used. -/
def kPath : Nat := 0

/-- Context-tag number of the error-status field. -/
def kErrorStatus : Nat := 1

end AttributeStatusIB

namespace WriteResponseMessage

/-- Context-tag number of `Tag::kWriteResponses` (value 0, modelled as in
`AttributeStatusIB`). -/
def kWriteResponses : Nat := 0

end WriteResponseMessage

/-- Fixed-numbered protocol-revision tag appended to every root
application message (`kInteractionModelRevisionTag`). -/
def kInteractionModelRevisionTag : Nat := 255

/-- Modelled from the spec: the schema revision recorded by
`EncodeInteractionModelRevision`. -/
def kInteractionModelRevision : Nat := 1

namespace AttributePathIB

/-- Modelled from the spec: context-tag numbers of the path fields named
in the spec scenario (endpoint, cluster, attribute). -/
def kEndpoint : Nat := 2

/-- Context-tag number of the cluster field. -/
def kCluster : Nat := 3

/-- Context-tag number of the attribute field. -/
def kAttribute : Nat := 4

end AttributePathIB

namespace StatusIB

/-- Modelled from the spec: context-tag number of the status code field
of a `StatusIB`. -/
def kStatus : Nat := 0

end StatusIB

/-- Modelled from the spec: `AttributePathIB::Parser::Init` binds the
parser to an already-open container, failing unless the cursor stands on
the expected container type (a TLV list for a path). -/
def AttributePathIB_Parser_Init : TLVElement → Except ChipError (List TLVElement)
  | .container _ .listType inner => .ok inner
  | _ => .error .wrongTLVType

/-- Modelled from the spec: `StatusIB::Parser::Init` expects a structure
container. -/
def StatusIB_Parser_Init : TLVElement → Except ChipError (List TLVElement)
  | .container _ .structType inner => .ok inner
  | _ => .error .wrongTLVType

/-- Modelled from the spec: `AttributeStatusIBs::Parser::Init` expects an
array container. -/
def AttributeStatusIBs_Parser_Init : TLVElement → Except ChipError (List TLVElement)
  | .container _ .arrayType inner => .ok inner
  | _ => .error .wrongTLVType

/-- Modelled from the spec: one step of the generic schema check for a
scalar field of tag number `n` — reject a repeated tag (bitmask), require
a primitive value, record the tag as seen. -/
def checkScalarField (e : TLVElement) (mask : Nat) (n : Nat) : Except ChipError Nat :=
  if mask &&& (1 <<< n) ≠ 0 then .error .invalidTLVTag
  else
    match e with
    | .uintVal _ _ => .ok (mask ||| (1 <<< n))
    | _ => .error .wrongTLVType

/-- Modelled from the spec: iteration of `AttributePathIB`'s schema check
following the generic framework — reject non-context tags and repeated
known tags, tolerate unknown tag numbers. -/
def attributePathCheckLoop : List TLVElement → Nat → Except ChipError Nat
  | [], mask => .ok mask
  | e :: rest, mask =>
    if IsContextTag e.getTag then
      let tagNum := TagNumFromTag e.getTag
      if tagNum = AttributePathIB.kEndpoint then
        match checkScalarField e mask tagNum with
        | .error err => .error err
        | .ok mask' => attributePathCheckLoop rest mask'
      else if tagNum = AttributePathIB.kCluster then
        match checkScalarField e mask tagNum with
        | .error err => .error err
        | .ok mask' => attributePathCheckLoop rest mask'
      else if tagNum = AttributePathIB.kAttribute then
        match checkScalarField e mask tagNum with
        | .error err => .error err
        | .ok mask' => attributePathCheckLoop rest mask'
      else attributePathCheckLoop rest mask
    else .error .invalidTLVTag

/-- Modelled from the spec: `AttributePathIB::Parser::CheckSchemaValidity`
(no field of the path is required). -/
def AttributePathIB_CheckSchemaValidity (elems : List TLVElement) : ChipError :=
  match attributePathCheckLoop elems 0 with
  | .error e => e
  | .ok _ => .noError

/-- Modelled from the spec: iteration of `StatusIB`'s schema check. -/
def statusCheckLoop : List TLVElement → Nat → Except ChipError Nat
  | [], mask => .ok mask
  | e :: rest, mask =>
    if IsContextTag e.getTag then
      let tagNum := TagNumFromTag e.getTag
      if tagNum = StatusIB.kStatus then
        match checkScalarField e mask tagNum with
        | .error err => .error err
        | .ok mask' => statusCheckLoop rest mask'
      else statusCheckLoop rest mask
    else .error .invalidTLVTag

/-- Modelled from the spec: `StatusIB::Parser::CheckSchemaValidity`. -/
def StatusIB_CheckSchemaValidity (elems : List TLVElement) : ChipError :=
  match statusCheckLoop elems 0 with
  | .error e => e
  | .ok _ => .noError

/-- Outcome of a `CheckSchemaValidity` call: the returned `CHIP_ERROR`,
and whether the function reached its `reader.ExitContainer(...)` call on
the private reader copy before returning (used to settle the
exit-on-all-paths claim). -/
structure CheckOutcome where
  err : ChipError
  exitedContainer : Bool
  deriving DecidableEq, Repr

end Chip

namespace Chip

/-- Translation of the while-loop of
`AttributeStatusIB::Parser::CheckSchemaValidity`
(src/app/MessageDef/AttributeStatusIB.cpp, lines 43–79): each element must
carry a context tag; a `kPath` element must not repeat, must initialise an
`AttributePathIB` parser (a list container) and pass its schema check; a
`kErrorStatus` element likewise with a `StatusIB` (structure container);
any other tag number is tolerated.  `.ok mask` is the loop ending with
`CHIP_END_OF_TLV`; `.error` is an early `return`. -/
def attributeStatusCheckLoop : List TLVElement → Nat → Except ChipError Nat
  | [], mask => .ok mask
  | e :: rest, mask =>
    if IsContextTag e.getTag then
      let tagNum := TagNumFromTag e.getTag
      if tagNum = AttributeStatusIB.kPath then
        if mask &&& (1 <<< AttributeStatusIB.kPath) ≠ 0 then .error .invalidTLVTag
        else
          let mask' := mask ||| (1 <<< AttributeStatusIB.kPath)
          match AttributePathIB_Parser_Init e with
          | .error err => .error err
          | .ok inner =>
            let err := AttributePathIB_CheckSchemaValidity inner
            if err = .noError then attributeStatusCheckLoop rest mask' else .error err
      else if tagNum = AttributeStatusIB.kErrorStatus then
        if mask &&& (1 <<< AttributeStatusIB.kErrorStatus) ≠ 0 then .error .invalidTLVTag
        else
          let mask' := mask ||| (1 <<< AttributeStatusIB.kErrorStatus)
          match StatusIB_Parser_Init e with
          | .error err => .error err
          | .ok inner =>
            let err := StatusIB_CheckSchemaValidity inner
            if err = .noError then attributeStatusCheckLoop rest mask' else .error err
      else attributeStatusCheckLoop rest mask
    else .error .invalidTLVTag

/-- Required-tag bitmask of `AttributeStatusIB` (line 86). -/
def AttributeStatusIB.RequiredFields : Nat :=
  (1 <<< AttributeStatusIB.kPath) ||| (1 <<< AttributeStatusIB.kErrorStatus)

/-- Translation of `AttributeStatusIB::Parser::CheckSchemaValidity`
(lines 31–97), applied to the element list of the container the parser is
bound to.  After the loop ends with `CHIP_END_OF_TLV`, `err` is reset to
`CHIP_NO_ERROR` only when the required-field mask is covered — there is no
`else` branch, so a missing required field leaves `err = CHIP_END_OF_TLV`
and `ReturnErrorOnFailure(err)` (line 94) returns it before the
`reader.ExitContainer` call (line 95) is reached. -/
def AttributeStatusIB_CheckSchemaValidity (elems : List TLVElement) : CheckOutcome :=
  match attributeStatusCheckLoop elems 0 with
  | .error e => ⟨e, false⟩
  | .ok mask =>
    if mask &&& AttributeStatusIB.RequiredFields = AttributeStatusIB.RequiredFields then
      ⟨.noError, true⟩
    else
      ⟨.endOfTLV, false⟩

/-- Modelled from the spec:
`MessageParser::CheckInteractionModelRevision` reads the revision as an
unsigned integer; revision mismatch is not a hard failure. -/
def CheckInteractionModelRevision : TLVElement → ChipError
  | .uintVal _ _ => .noError
  | _ => .wrongTLVType

/-- Modelled from the spec: `AttributeStatusIBs::Parser::CheckSchemaValidity`
iterates the array of status entries: each member must be an
anonymous-tagged structure whose contents pass the
`AttributeStatusIB` schema check. -/
def AttributeStatusIBs_CheckSchemaValidity : List TLVElement → ChipError
  | [] => .noError
  | e :: rest =>
    if e.getTag = TLVTag.anonymous then
      match e with
      | .container _ .structType inner =>
        let r := (AttributeStatusIB_CheckSchemaValidity inner).err
        if r = .noError then AttributeStatusIBs_CheckSchemaValidity rest else r
      | _ => .wrongTLVType
    else .invalidTLVTag

/-- Translation of the while-loop of
`WriteResponseMessage::Parser::CheckSchemaValidity`
(src/app/MessageDef/WriteResponseMessage.cpp, lines 41–67): an element
whose tag is not a context tag is skipped (`continue`, lines 43–46); a
`kWriteResponses` element must not repeat, must be an array (line 53) and
its contents must pass the `AttributeStatusIBs` check; a revision-tag
element must pass `CheckInteractionModelRevision`; any other tag number is
tolerated. -/
def writeResponseCheckLoop : List TLVElement → Nat → Except ChipError Nat
  | [], mask => .ok mask
  | e :: rest, mask =>
    if IsContextTag e.getTag then
      let tagNum := TagNumFromTag e.getTag
      if tagNum = WriteResponseMessage.kWriteResponses then
        if mask &&& (1 <<< WriteResponseMessage.kWriteResponses) ≠ 0 then .error .invalidTLVTag
        else
          let mask' := mask ||| (1 <<< WriteResponseMessage.kWriteResponses)
          match e with
          | .container _ .arrayType inner =>
            let err := AttributeStatusIBs_CheckSchemaValidity inner
            if err = .noError then writeResponseCheckLoop rest mask' else .error err
          | _ => .error .wrongTLVType
      else if tagNum = kInteractionModelRevisionTag then
        let err := CheckInteractionModelRevision e
        if err = .noError then writeResponseCheckLoop rest mask else .error err
      else writeResponseCheckLoop rest mask
    else writeResponseCheckLoop rest mask

/-- Required-tag bitmask of `WriteResponseMessage` (line 74). -/
def WriteResponseMessage.RequiredFields : Nat :=
  (1 <<< WriteResponseMessage.kWriteResponses)

/-- Translation of `WriteResponseMessage::Parser::CheckSchemaValidity`
(lines 29–88): unlike `AttributeStatusIB`, the required-field test has an
`else` branch (line 82) assigning the message-specific
`CHIP_ERROR_IM_MALFORMED_WRITE_RESPONSE_MESSAGE`; the
`reader.ExitContainer` call (line 87) is reached only when `err` is
`CHIP_NO_ERROR`. -/
def WriteResponseMessage_CheckSchemaValidity (elems : List TLVElement) : CheckOutcome :=
  match writeResponseCheckLoop elems 0 with
  | .error e => ⟨e, false⟩
  | .ok mask =>
    if mask &&& WriteResponseMessage.RequiredFields = WriteResponseMessage.RequiredFields then
      ⟨.noError, true⟩
    else
      ⟨.imMalformedWriteResponseMessage, false⟩

/-- Translation of `AttributeStatusIB::Parser::GetPath` (lines 100–106):
find the `kPath`-tagged element and bind a path parser to it. -/
def AttributeStatusIB_Parser_GetPath (elems : List TLVElement) :
    Except ChipError (List TLVElement) :=
  match FindElementWithTag (.context AttributeStatusIB.kPath) elems with
  | .error e => .error e
  | .ok e => AttributePathIB_Parser_Init e

/-- Translation of `AttributeStatusIB::Parser::GetErrorStatus`
(lines 108–114). -/
def AttributeStatusIB_Parser_GetErrorStatus (elems : List TLVElement) :
    Except ChipError (List TLVElement) :=
  match FindElementWithTag (.context AttributeStatusIB.kErrorStatus) elems with
  | .error e => .error e
  | .ok e => StatusIB_Parser_Init e

/-- Translation of `WriteResponseMessage::Parser::GetWriteResponses`
(lines 91–96). -/
def WriteResponseMessage_Parser_GetWriteResponses (elems : List TLVElement) :
    Except ChipError (List TLVElement) :=
  match FindElementWithTag (.context WriteResponseMessage.kWriteResponses) elems with
  | .error e => .error e
  | .ok e => AttributeStatusIBs_Parser_Init e

end Chip

namespace Chip

/-- Modelled from the spec: the `TLV::TLVWriter` state — a stack of open
containers (innermost first, each with the tag and type it was started
with and the elements written into it so far) over the list of completed
root-level elements. -/
structure TLVWriter where
  frames : List (TLVTag × TLVContainerType × List TLVElement)
  root : List TLVElement

namespace TLVWriter

/-- Append a completed element at the current writing position. -/
def put (w : TLVWriter) (e : TLVElement) : TLVWriter :=
  match w.frames with
  | [] => { w with root := w.root ++ [e] }
  | (t, ty, es) :: fs => { w with frames := (t, ty, es ++ [e]) :: fs }

/-- Open a new container at the current writing position. -/
def startContainer (w : TLVWriter) (t : TLVTag) (ty : TLVContainerType) : TLVWriter :=
  { w with frames := (t, ty, []) :: w.frames }

/-- Close the innermost open container, emitting it as one element of the
enclosing level. -/
def endContainer (w : TLVWriter) : TLVWriter :=
  match w.frames with
  | [] => w
  | (t, ty, es) :: fs => put { w with frames := fs } (.container t ty es)

end TLVWriter

/-- Modelled from the spec: the base `Builder::EndOfContainer` — a no-op
on an already-errored builder, otherwise closes the container. -/
def builderEndOfContainer (err : ChipError) (w : TLVWriter) : TLVWriter :=
  if err = .noError then w.endContainer else w

/-- Modelled from the spec: `AttributePathIB::Builder` — sticky error
state of a nested builder. -/
structure AttributePathIB_Builder where
  mError : ChipError
  deriving DecidableEq, Repr

namespace AttributePathIB_Builder

/-- Modelled from the spec: `Init(writer, tag)` positions the nested
builder to write a list container under the given context tag
(one-shot); in the tree model starting a container cannot fail. -/
def Init (w : TLVWriter) (tagNum : Nat) :
    ChipError × TLVWriter × AttributePathIB_Builder :=
  (.noError, w.startContainer (.context tagNum) .listType, ⟨.noError⟩)

/-- Modelled from the spec: write the endpoint field (no-op when
errored). -/
def Endpoint (b : AttributePathIB_Builder) (w : TLVWriter) (v : Nat) :
    TLVWriter × AttributePathIB_Builder :=
  if b.mError = .noError then
    (w.put (.uintVal (.context AttributePathIB.kEndpoint) v), b)
  else (w, b)

/-- Modelled from the spec: write the cluster field. -/
def Cluster (b : AttributePathIB_Builder) (w : TLVWriter) (v : Nat) :
    TLVWriter × AttributePathIB_Builder :=
  if b.mError = .noError then
    (w.put (.uintVal (.context AttributePathIB.kCluster) v), b)
  else (w, b)

/-- Modelled from the spec: write the attribute field. -/
def Attribute (b : AttributePathIB_Builder) (w : TLVWriter) (v : Nat) :
    TLVWriter × AttributePathIB_Builder :=
  if b.mError = .noError then
    (w.put (.uintVal (.context AttributePathIB.kAttribute) v), b)
  else (w, b)

/-- Modelled from the spec: close the path container. -/
def EndOfAttributePathIB (b : AttributePathIB_Builder) (w : TLVWriter) :
    TLVWriter × AttributePathIB_Builder :=
  (builderEndOfContainer b.mError w, b)

end AttributePathIB_Builder

/-- Modelled from the spec: `StatusIB::Builder`. -/
structure StatusIB_Builder where
  mError : ChipError
  deriving DecidableEq, Repr

namespace StatusIB_Builder

/-- Modelled from the spec: `Init(writer, tag)` opens a structure
container under the given context tag. -/
def Init (w : TLVWriter) (tagNum : Nat) :
    ChipError × TLVWriter × StatusIB_Builder :=
  (.noError, w.startContainer (.context tagNum) .structType, ⟨.noError⟩)

/-- Modelled from the spec: encode the status code field. -/
def EncodeStatusIB (b : StatusIB_Builder) (w : TLVWriter) (st : Nat) :
    TLVWriter × StatusIB_Builder :=
  if b.mError = .noError then
    (w.put (.uintVal (.context StatusIB.kStatus) st), b)
  else (w, b)

/-- Modelled from the spec: close the status container. -/
def EndOfStatusIB (b : StatusIB_Builder) (w : TLVWriter) :
    TLVWriter × StatusIB_Builder :=
  (builderEndOfContainer b.mError w, b)

end StatusIB_Builder

/-- Modelled from the spec: `AttributeStatusIBs::Builder` (the array of
status entries). -/
structure AttributeStatusIBs_Builder where
  mError : ChipError
  deriving DecidableEq, Repr

namespace AttributeStatusIBs_Builder

/-- Modelled from the spec: `Init(writer, tag)` opens an array container
under the given context tag. -/
def Init (w : TLVWriter) (tagNum : Nat) :
    ChipError × TLVWriter × AttributeStatusIBs_Builder :=
  (.noError, w.startContainer (.context tagNum) .arrayType, ⟨.noError⟩)

end AttributeStatusIBs_Builder

/-- State of `AttributeStatusIB::Builder`: the sticky error plus the two
nested builder members issued by the create calls. -/
structure AttributeStatusIB_Builder where
  mError : ChipError
  mPath : AttributePathIB_Builder
  mErrorStatus : StatusIB_Builder
  deriving DecidableEq, Repr

namespace AttributeStatusIB_Builder

/-- Translation of `AttributeStatusIB::Builder::CreatePath`
(src/app/MessageDef/AttributeStatusIB.cpp, lines 116–123): only when the
sticky error is clear, `mError = mPath.Init(mpWriter, kPath)`; the member
`mPath` is returned in either case. -/
def CreatePath (b : AttributeStatusIB_Builder) (w : TLVWriter) :
    TLVWriter × AttributeStatusIB_Builder × AttributePathIB_Builder :=
  if b.mError = .noError then
    let (e, w', p) := AttributePathIB_Builder.Init w AttributeStatusIB.kPath
    let b' := { b with mError := e, mPath := p }
    (w', b', b'.mPath)
  else (w, b, b.mPath)

/-- Translation of `AttributeStatusIB::Builder::CreateErrorStatus`
(lines 125–132). -/
def CreateErrorStatus (b : AttributeStatusIB_Builder) (w : TLVWriter) :
    TLVWriter × AttributeStatusIB_Builder × StatusIB_Builder :=
  if b.mError = .noError then
    let (e, w', s) := StatusIB_Builder.Init w AttributeStatusIB.kErrorStatus
    let b' := { b with mError := e, mErrorStatus := s }
    (w', b', b'.mErrorStatus)
  else (w, b, b.mErrorStatus)

/-- Translation of `AttributeStatusIB::Builder::EndOfAttributeStatusIB`
(lines 134–138): `EndOfContainer(); return *this;` — no revision tag is
written. -/
def EndOfAttributeStatusIB (b : AttributeStatusIB_Builder) (w : TLVWriter) :
    TLVWriter × AttributeStatusIB_Builder :=
  (builderEndOfContainer b.mError w, b)

end AttributeStatusIB_Builder

/-- Modelled from the spec:
`MessageBuilder::EncodeInteractionModelRevision` appends the
fixed-numbered revision tag with the current schema revision. -/
def EncodeInteractionModelRevision (w : TLVWriter) : ChipError × TLVWriter :=
  (.noError, w.put (.uintVal (.context kInteractionModelRevisionTag) kInteractionModelRevision))

/-- State of `WriteResponseMessage::Builder`. -/
structure WriteResponseMessage_Builder where
  mError : ChipError
  mWriteResponses : AttributeStatusIBs_Builder
  deriving DecidableEq, Repr

namespace WriteResponseMessage_Builder

/-- Translation of `WriteResponseMessage::Builder::CreateWriteResponses`
(src/app/MessageDef/WriteResponseMessage.cpp, lines 98–106): skipped when
the sticky error is set; the member `mWriteResponses` is returned in
either case. -/
def CreateWriteResponses (b : WriteResponseMessage_Builder) (w : TLVWriter) :
    TLVWriter × WriteResponseMessage_Builder × AttributeStatusIBs_Builder :=
  if b.mError = .noError then
    let (e, w', a) := AttributeStatusIBs_Builder.Init w WriteResponseMessage.kWriteResponses
    let b' := { b with mError := e, mWriteResponses := a }
    (w', b', b'.mWriteResponses)
  else (w, b, b.mWriteResponses)

/-- Translation of
`WriteResponseMessage::Builder::EndOfWriteResponseMessage`
(lines 113–124): when no error, encode the revision tag; when still no
error, close the container. -/
def EndOfWriteResponseMessage (b : WriteResponseMessage_Builder) (w : TLVWriter) :
    TLVWriter × WriteResponseMessage_Builder :=
  let (b1, w1) :=
    if b.mError = .noError then
      let (e, w') := EncodeInteractionModelRevision w
      ({ b with mError := e }, w')
    else (b, w)
  if b1.mError = .noError then (w1.endContainer, b1) else (w1, b1)

end WriteResponseMessage_Builder

end Chip

namespace Chip

/-- Modelled from the spec: `AttributePathIB::Parser::GetEndpoint` —
independent lookup-by-tag of the endpoint field. -/
def AttributePathIB_Parser_GetEndpoint (elems : List TLVElement) : Except ChipError Nat :=
  match FindElementWithTag (.context AttributePathIB.kEndpoint) elems with
  | .error e => .error e
  | .ok (.uintVal _ v) => .ok v
  | .ok _ => .error .wrongTLVType

/-- Modelled from the spec: `AttributePathIB::Parser::GetCluster`. -/
def AttributePathIB_Parser_GetCluster (elems : List TLVElement) : Except ChipError Nat :=
  match FindElementWithTag (.context AttributePathIB.kCluster) elems with
  | .error e => .error e
  | .ok (.uintVal _ v) => .ok v
  | .ok _ => .error .wrongTLVType

/-- Modelled from the spec: `AttributePathIB::Parser::GetAttribute`. -/
def AttributePathIB_Parser_GetAttribute (elems : List TLVElement) : Except ChipError Nat :=
  match FindElementWithTag (.context AttributePathIB.kAttribute) elems with
  | .error e => .error e
  | .ok (.uintVal _ v) => .ok v
  | .ok _ => .error .wrongTLVType

/-- Modelled from the spec: `StatusIB::Parser` status-code accessor. -/
def StatusIB_Parser_GetStatus (elems : List TLVElement) : Except ChipError Nat :=
  match FindElementWithTag (.context StatusIB.kStatus) elems with
  | .error e => .error e
  | .ok (.uintVal _ v) => .ok v
  | .ok _ => .error .wrongTLVType

/-- Build of the spec scenario through the Builder API: starting from an
open (anonymous) `AttributeStatusIB` structure container, create the
path, write endpoint/cluster/attribute, end it; create the error status,
write the status code, end it; end the `AttributeStatusIB`. -/
def buildAttributeStatusIB (ep cl attr st : Nat) :
    TLVWriter × AttributeStatusIB_Builder :=
  let w0 : TLVWriter := { frames := [(.anonymous, .structType, [])], root := [] }
  let b0 : AttributeStatusIB_Builder :=
    { mError := .noError, mPath := ⟨.noError⟩, mErrorStatus := ⟨.noError⟩ }
  let (w1, b1, pb0) := b0.CreatePath w0
  let (w2, pb1) := pb0.Endpoint w1 ep
  let (w3, pb2) := pb1.Cluster w2 cl
  let (w4, pb3) := pb2.Attribute w3 attr
  let (w5, _) := pb3.EndOfAttributePathIB w4
  let (w6, b2, sb0) := b1.CreateErrorStatus w5
  let (w7, sb1) := sb0.EncodeStatusIB w6 st
  let (w8, _) := sb1.EndOfStatusIB w7
  b2.EndOfAttributeStatusIB w8

/-- Element list of the encoded `AttributeStatusIB` produced by
`buildAttributeStatusIB` — the contents of the single root container the
build leaves behind. -/
def builtAttributeStatusIBElems (ep cl attr st : Nat) : List TLVElement :=
  match (buildAttributeStatusIB ep cl attr st).1.root with
  | [TLVElement.container _ _ es] => es
  | _ => []

/-- Sample encoded path field (endpoint 1, cluster 6, attribute 0),
used as concrete input by several checks. -/
def samplePath : TLVElement :=
  .container (.context AttributeStatusIB.kPath) .listType
    [.uintVal (.context AttributePathIB.kEndpoint) 1,
     .uintVal (.context AttributePathIB.kCluster) 6,
     .uintVal (.context AttributePathIB.kAttribute) 0]

/-- Sample encoded error-status field (status 0x86). -/
def sampleStatus : TLVElement :=
  .container (.context AttributeStatusIB.kErrorStatus) .structType
    [.uintVal (.context StatusIB.kStatus) 134]

/-- Sample encoded write-responses array with one entry. -/
def sampleWriteResponses : TLVElement :=
  .container (.context WriteResponseMessage.kWriteResponses) .arrayType
    [.container .anonymous .structType [samplePath, sampleStatus]]

/-- Caller-visible effect of `AttributeStatusIB::Parser::CheckSchemaValidity`
on the parser itself: the verdict paired with the parser's bound reader
state after the call.  The function is `const` and its only cursor is the
private copy made at line 41 (`reader.Init(mReader)`); no statement of the
body writes `mReader`, so the state handed back is the state passed in. -/
def AttributeStatusIB_Parser_CheckAndState (elems : List TLVElement) :
    CheckOutcome × List TLVElement :=
  (AttributeStatusIB_CheckSchemaValidity elems, elems)

/-- Caller-visible effect of
`WriteResponseMessage::Parser::CheckSchemaValidity` on the parser (the
private copy is made at line 39). -/
def WriteResponseMessage_Parser_CheckAndState (elems : List TLVElement) :
    CheckOutcome × List TLVElement :=
  (WriteResponseMessage_CheckSchemaValidity elems, elems)

/-- Invalid-descriptor sentinel of `WatchableSocketBasis` (`kInvalidFd`). -/
def kInvalidFd : Int := -1

/-- State of `WatchableSocketBasis` (src/system/WatchableSocket.h): the
file descriptor, the pending socket-event flags, the registered callback
(a function pointer, modelled as an opaque identifier with 0 for null),
its data word, and the shared platform state pointer.  The `mPendingIO`
member is written `mPendingIo` here. -/
structure WatchableSocketState where
  mFD : Int
  mPendingIo : Nat
  mCallback : Nat
  mCallbackData : Int
  mSharedState : Nat
  deriving DecidableEq, Repr

/-- Translation of `WatchableSocketBasis::ReleaseFD` (lines 129–135):
invoke the platform `OnRelease` hook, save `mFD`, set `mFD` to
`kInvalidFd`, return the saved descriptor.  Modelled from the spec: the
`OnRelease` hook belongs to the swappable platform backend and touches
only the backend watcher state, none of the basis fields. -/
def WatchableSocket_ReleaseFD (s : WatchableSocketState) :
    Int × WatchableSocketState :=
  let fd := s.mFD
  (fd, { s with mFD := kInvalidFd })

/-- Translation of `WatchableSocketBasis::HasFD` (line 145). -/
def WatchableSocket_HasFD (s : WatchableSocketState) : Bool :=
  decide (s.mFD ≥ 0)

/-- Translation of `WatchableSocketBasis::GetFD` (line 150). -/
def WatchableSocket_GetFD (s : WatchableSocketState) : Int :=
  s.mFD

end Chip

namespace Chip

theorem maskBit_ne (mask n : Nat) : mask &&& (1 <<< n) ≠ 0 ↔ mask.testBit n := by
  rw [Nat.one_shiftLeft, Nat.and_two_pow]
  cases h : mask.testBit n <;> simp [h, (Nat.two_pow_pos n).ne']

theorem testBit_or_shift (mask k j : Nat) :
    (mask ||| (1 <<< k)).testBit j = (mask.testBit j || decide (k = j)) := by
  rw [Nat.testBit_lor, Nat.one_shiftLeft, Nat.testBit_two_pow]

theorem AttributePathIB_Parser_Init_error_ne (x : TLVElement) (e : ChipError)
    (h : AttributePathIB_Parser_Init x = .error e) : e ≠ .noError := by
  cases x with
  | uintVal t v =>
    simp [AttributePathIB_Parser_Init] at h
    simp [← h]
  | container t ty es =>
    cases ty <;> simp [AttributePathIB_Parser_Init] at h <;> simp [← h]

theorem StatusIB_Parser_Init_error_ne (x : TLVElement) (e : ChipError)
    (h : StatusIB_Parser_Init x = .error e) : e ≠ .noError := by
  cases x with
  | uintVal t v =>
    simp [StatusIB_Parser_Init] at h
    simp [← h]
  | container t ty es =>
    cases ty <;> simp [StatusIB_Parser_Init] at h <;> simp [← h]

theorem attributeStatusCheckLoop_error_ne :
    ∀ (l : List TLVElement) (mask : Nat) (e : ChipError),
      attributeStatusCheckLoop l mask = .error e → e ≠ .noError := by
  intro l
  induction l with
  | nil => intro mask e h; simp [attributeStatusCheckLoop] at h
  | cons hd tl ih =>
    intro mask e h
    simp only [attributeStatusCheckLoop] at h
    split at h
    · split at h
      · split at h
        · cases h; decide
        · split at h
          · rename_i heq
            cases h
            exact AttributePathIB_Parser_Init_error_ne _ _ heq
          · split at h
            · exact ih _ _ h
            · cases h; assumption
      · split at h
        · split at h
          · cases h; decide
          · split at h
            · rename_i heq
              cases h
              exact StatusIB_Parser_Init_error_ne _ _ heq
            · split at h
              · exact ih _ _ h
              · cases h; assumption
        · exact ih _ _ h
    · cases h; decide

end Chip

namespace Chip

theorem writeResponseCheckLoop_error_ne :
    ∀ (l : List TLVElement) (mask : Nat) (e : ChipError),
      writeResponseCheckLoop l mask = .error e → e ≠ .noError := by
  intro l
  induction l with
  | nil => intro mask e h; simp [writeResponseCheckLoop] at h
  | cons hd tl ih =>
    intro mask e h
    simp only [writeResponseCheckLoop] at h
    split at h
    · split at h
      · split at h
        · cases h; decide
        · split at h
          · split at h
            · exact ih _ _ h
            · cases h; assumption
          · cases h; decide
      · split at h
        · split at h
          · exact ih _ _ h
          · cases h; assumption
        · exact ih _ _ h
    · exact ih _ _ h

end Chip

namespace Chip

/-- Number of elements of a level carrying context tag `n`. -/
def countContextTag (n : Nat) : List TLVElement → Nat
  | [] => 0
  | e :: rest => (if e.getTag = TLVTag.context n then 1 else 0) + countContextTag n rest

end Chip

namespace Chip

theorem isContextTag_eq (t : TLVTag) (h : IsContextTag t = true) :
    t = .context (TagNumFromTag t) := by
  cases t with
  | context n => simp [TagNumFromTag]
  | anonymous => simp [IsContextTag] at h
  | profile p n => simp [IsContextTag] at h

theorem attributeStatusCheckLoop_ok_count_path :
    ∀ (l : List TLVElement) (mask m : Nat),
      attributeStatusCheckLoop l mask = .ok m →
      countContextTag AttributeStatusIB.kPath l
        + (if mask.testBit AttributeStatusIB.kPath then 1 else 0) ≤ 1 := by
  intro l
  induction l with
  | nil =>
    intro mask m h
    simp only [countContextTag]
    split <;> omega
  | cons hd tl ih =>
    intro mask m h
    simp only [attributeStatusCheckLoop] at h
    simp only [countContextTag]
    split at h
    · rename_i hctx
      have hEq := isContextTag_eq _ hctx
      split at h
      · rename_i htag
        rw [htag] at hEq
        rw [if_pos hEq]
        split at h
        · simp at h
        · rename_i hdup
          have hbit : ¬ mask.testBit AttributeStatusIB.kPath := by
            rw [← maskBit_ne]; exact hdup
          rw [if_neg hbit]
          split at h
          · simp at h
          · split at h
            · have h2 := ih _ _ h
              rw [testBit_or_shift] at h2
              simp only [decide_True, Bool.or_true, if_true] at h2
              omega
            · simp at h
      · rename_i htag
        split at h
        · rename_i htag2
          rw [htag2] at hEq
          have hne : AttributeStatusIB.kErrorStatus ≠ AttributeStatusIB.kPath := by decide
          have hcon : ¬ hd.getTag = TLVTag.context AttributeStatusIB.kPath := by
            rw [hEq]; simp [hne]
          rw [if_neg hcon]
          split at h
          · simp at h
          · split at h
            · simp at h
            · split at h
              · have h2 := ih _ _ h
                rw [testBit_or_shift] at h2
                simp only [hne, decide_False, Bool.or_false] at h2
                omega
              · simp at h
        · have h2 := ih _ _ h
          have hcon : ¬ hd.getTag = TLVTag.context AttributeStatusIB.kPath := by
            rw [hEq]; intro hc
            exact htag (by injection hc)
          rw [if_neg hcon]
          omega
    · simp at h

end Chip

namespace Chip

theorem attributeStatusCheckLoop_ok_count_status :
    ∀ (l : List TLVElement) (mask m : Nat),
      attributeStatusCheckLoop l mask = .ok m →
      countContextTag AttributeStatusIB.kErrorStatus l
        + (if mask.testBit AttributeStatusIB.kErrorStatus then 1 else 0) ≤ 1 := by
  intro l
  induction l with
  | nil =>
    intro mask m h
    simp only [countContextTag]
    split <;> omega
  | cons hd tl ih =>
    intro mask m h
    simp only [attributeStatusCheckLoop] at h
    simp only [countContextTag]
    split at h
    · rename_i hctx
      have hEq := isContextTag_eq _ hctx
      split at h
      · rename_i htag
        rw [htag] at hEq
        have hne : AttributeStatusIB.kPath ≠ AttributeStatusIB.kErrorStatus := by decide
        have hcon : ¬ hd.getTag = TLVTag.context AttributeStatusIB.kErrorStatus := by
          rw [hEq]; simp [hne]
        rw [if_neg hcon]
        split at h
        · simp at h
        · split at h
          · simp at h
          · split at h
            · have h2 := ih _ _ h
              rw [testBit_or_shift] at h2
              simp only [hne, decide_False, Bool.or_false] at h2
              omega
            · simp at h
      · rename_i htag
        split at h
        · rename_i htag2
          rw [htag2] at hEq
          rw [if_pos hEq]
          split at h
          · simp at h
          · rename_i hdup
            have hbit : ¬ mask.testBit AttributeStatusIB.kErrorStatus := by
              rw [← maskBit_ne]; exact hdup
            rw [if_neg hbit]
            split at h
            · simp at h
            · split at h
              · have h2 := ih _ _ h
                rw [testBit_or_shift] at h2
                simp only [decide_True, Bool.or_true, if_true] at h2
                omega
              · simp at h
        · have h2 := ih _ _ h
          have hcon : ¬ hd.getTag = TLVTag.context AttributeStatusIB.kErrorStatus := by
            rw [hEq]; intro hc
            rename_i htag2
            exact htag2 (by injection hc)
          rw [if_neg hcon]
          omega
    · simp at h

end Chip

namespace Chip

theorem writeResponseCheckLoop_ok_count :
    ∀ (l : List TLVElement) (mask m : Nat),
      writeResponseCheckLoop l mask = .ok m →
      countContextTag WriteResponseMessage.kWriteResponses l
        + (if mask.testBit WriteResponseMessage.kWriteResponses then 1 else 0) ≤ 1 := by
  intro l
  induction l with
  | nil =>
    intro mask m h
    simp only [countContextTag]
    split <;> omega
  | cons hd tl ih =>
    intro mask m h
    simp only [writeResponseCheckLoop] at h
    simp only [countContextTag]
    split at h
    · rename_i hctx
      have hEq := isContextTag_eq _ hctx
      split at h
      · rename_i htag
        rw [htag] at hEq
        rw [if_pos hEq]
        split at h
        · simp at h
        · rename_i hdup
          have hbit : ¬ mask.testBit WriteResponseMessage.kWriteResponses := by
            rw [← maskBit_ne]; exact hdup
          rw [if_neg hbit]
          split at h
          · split at h
            · have h2 := ih _ _ h
              rw [testBit_or_shift] at h2
              simp only [decide_True, Bool.or_true, if_true] at h2
              omega
            · simp at h
          · simp at h
      · rename_i htag
        have hcon : ¬ hd.getTag = TLVTag.context WriteResponseMessage.kWriteResponses := by
          rw [hEq]; intro hc
          exact htag (by injection hc)
        rw [if_neg hcon]
        split at h
        · split at h
          · have h2 := ih _ _ h
            omega
          · simp at h
        · have h2 := ih _ _ h
          omega
    · rename_i hctx
      have hcon : ¬ hd.getTag = TLVTag.context WriteResponseMessage.kWriteResponses := by
        intro hc
        exact hctx (by rw [hc]; rfl)
      rw [if_neg hcon]
      have h2 := ih _ _ h
      omega

end Chip

namespace Chip

theorem findElementWithTag_skip (t : TLVTag) (e : TLVElement) (he : e.getTag ≠ t) :
    ∀ (l1 l2 : List TLVElement),
      FindElementWithTag t (l1 ++ e :: l2) = FindElementWithTag t (l1 ++ l2) := by
  intro l1
  induction l1 with
  | nil =>
    intro l2
    simp only [List.nil_append, FindElementWithTag]
    rw [if_neg he]
  | cons hd l1' ih =>
    intro l2
    simp only [List.cons_append, FindElementWithTag]
    by_cases hc : hd.getTag = t
    · rw [if_pos hc, if_pos hc]
    · rw [if_neg hc, if_neg hc]
      exact ih l2

theorem attributeStatusCheckLoop_skip_unknown (e : TLVElement) (n : Nat)
    (hg : e.getTag = .context n)
    (hn0 : n ≠ AttributeStatusIB.kPath) (hn1 : n ≠ AttributeStatusIB.kErrorStatus) :
    ∀ (l1 l2 : List TLVElement) (mask : Nat),
      attributeStatusCheckLoop (l1 ++ e :: l2) mask
        = attributeStatusCheckLoop (l1 ++ l2) mask := by
  intro l1
  induction l1 with
  | nil =>
    intro l2 mask
    simp only [List.nil_append]
    conv_lhs => rw [attributeStatusCheckLoop]
    rw [hg]
    simp [IsContextTag, TagNumFromTag, hn0, hn1]
  | cons hd l1' ih =>
    intro l2 mask
    simp only [List.cons_append, attributeStatusCheckLoop]
    split
    · split
      · split
        · rfl
        · split
          · rfl
          · split
            · exact ih l2 _
            · rfl
      · split
        · split
          · rfl
          · split
            · rfl
            · split
              · exact ih l2 _
              · rfl
        · exact ih l2 _
    · rfl

theorem writeResponseCheckLoop_skip_unknown (e : TLVElement) (n : Nat)
    (hg : e.getTag = .context n)
    (hn0 : n ≠ WriteResponseMessage.kWriteResponses)
    (hn1 : n ≠ kInteractionModelRevisionTag) :
    ∀ (l1 l2 : List TLVElement) (mask : Nat),
      writeResponseCheckLoop (l1 ++ e :: l2) mask
        = writeResponseCheckLoop (l1 ++ l2) mask := by
  intro l1
  induction l1 with
  | nil =>
    intro l2 mask
    simp only [List.nil_append]
    conv_lhs => rw [writeResponseCheckLoop]
    rw [hg]
    simp [IsContextTag, TagNumFromTag, hn0, hn1]
  | cons hd l1' ih =>
    intro l2 mask
    simp only [List.cons_append, writeResponseCheckLoop]
    split
    · split
      · split
        · rfl
        · split
          · split
            · exact ih l2 _
            · rfl
          · rfl
      · split
        · split
          · exact ih l2 _
          · rfl
        · exact ih l2 _
    · exact ih l2 _

theorem writeResponseCheckLoop_skip_noncontext (e : TLVElement)
    (hg : IsContextTag e.getTag = false) :
    ∀ (l1 l2 : List TLVElement) (mask : Nat),
      writeResponseCheckLoop (l1 ++ e :: l2) mask
        = writeResponseCheckLoop (l1 ++ l2) mask := by
  intro l1
  induction l1 with
  | nil =>
    intro l2 mask
    simp only [List.nil_append]
    conv_lhs => rw [writeResponseCheckLoop]
    rw [hg]
    simp
  | cons hd l1' ih =>
    intro l2 mask
    simp only [List.cons_append, writeResponseCheckLoop]
    split
    · split
      · split
        · rfl
        · split
          · split
            · exact ih l2 _
            · rfl
          · rfl
      · split
        · split
          · exact ih l2 _
          · rfl
        · exact ih l2 _
    · exact ih l2 _

theorem attributeStatusCheckLoop_noncontext_not_ok (e : TLVElement)
    (hg : IsContextTag e.getTag = false) :
    ∀ (l1 l2 : List TLVElement) (mask m : Nat),
      attributeStatusCheckLoop (l1 ++ e :: l2) mask ≠ .ok m := by
  intro l1
  induction l1 with
  | nil =>
    intro l2 mask m h
    simp only [List.nil_append, attributeStatusCheckLoop] at h
    rw [hg] at h
    simp at h
  | cons hd l1' ih =>
    intro l2 mask m h
    simp only [List.cons_append, attributeStatusCheckLoop] at h
    split at h
    · split at h
      · split at h
        · simp at h
        · split at h
          · simp at h
          · split at h
            · exact ih l2 _ _ h
            · simp at h
      · split at h
        · split at h
          · simp at h
          · split at h
            · simp at h
            · split at h
              · exact ih l2 _ _ h
              · simp at h
        · exact ih l2 _ _ h
    · simp at h

end Chip

namespace Chip

/-- C1: On a container that ends with a required field absent, the two
concrete parsers diverge: `WriteResponseMessage::Parser::CheckSchemaValidity`
returns its message-specific malformed error, but
`AttributeStatusIB::Parser::CheckSchemaValidity` — whose required-field
test has no `else` branch — returns the generic `CHIP_END_OF_TLV` left
over from the loop, not a type-specific malformed error (and not a
not-found error either). -/
theorem c1_missing_required_field_error :
    (AttributeStatusIB_CheckSchemaValidity [samplePath]).err = .endOfTLV ∧
    (AttributeStatusIB_CheckSchemaValidity [sampleStatus]).err = .endOfTLV ∧
    (WriteResponseMessage_CheckSchemaValidity []).err = .imMalformedWriteResponseMessage := by
  refine ⟨?_, ?_, ?_⟩ <;> decide

/-- C2: round-trip of the spec scenario shape through the Builder API —
for every endpoint, cluster, attribute and status value, the encoding
produced by `CreatePath`/`CreateErrorStatus`/`EndOfAttributeStatusIB`
passes `CheckSchemaValidity`, and `GetPath`/`GetErrorStatus` with the
field accessors return exactly the values that were built. -/
theorem c2_roundtrip_attributeStatusIB (ep cl attr st : Nat) :
    (AttributeStatusIB_CheckSchemaValidity (builtAttributeStatusIBElems ep cl attr st)).err
      = .noError ∧
    (AttributeStatusIB_Parser_GetPath (builtAttributeStatusIBElems ep cl attr st)).bind
        AttributePathIB_Parser_GetEndpoint = .ok ep ∧
    (AttributeStatusIB_Parser_GetPath (builtAttributeStatusIBElems ep cl attr st)).bind
        AttributePathIB_Parser_GetCluster = .ok cl ∧
    (AttributeStatusIB_Parser_GetPath (builtAttributeStatusIBElems ep cl attr st)).bind
        AttributePathIB_Parser_GetAttribute = .ok attr ∧
    (AttributeStatusIB_Parser_GetErrorStatus (builtAttributeStatusIBElems ep cl attr st)).bind
        StatusIB_Parser_GetStatus = .ok st := by
  have he : builtAttributeStatusIBElems ep cl attr st =
      [.container (.context AttributeStatusIB.kPath) .listType
        [.uintVal (.context AttributePathIB.kEndpoint) ep,
         .uintVal (.context AttributePathIB.kCluster) cl,
         .uintVal (.context AttributePathIB.kAttribute) attr],
       .container (.context AttributeStatusIB.kErrorStatus) .structType
        [.uintVal (.context StatusIB.kStatus) st]] := rfl
  refine ⟨?_, ?_, ?_, ?_, ?_⟩ <;>
    simp [he, AttributeStatusIB_CheckSchemaValidity, attributeStatusCheckLoop,
      AttributePathIB_Parser_Init, AttributePathIB_CheckSchemaValidity, attributePathCheckLoop,
      StatusIB_Parser_Init, StatusIB_CheckSchemaValidity, statusCheckLoop, checkScalarField,
      IsContextTag, TagNumFromTag, TLVElement.getTag, AttributeStatusIB.kPath,
      AttributeStatusIB.kErrorStatus, AttributePathIB.kEndpoint, AttributePathIB.kCluster,
      AttributePathIB.kAttribute, StatusIB.kStatus, AttributeStatusIB.RequiredFields,
      AttributeStatusIB_Parser_GetPath, AttributeStatusIB_Parser_GetErrorStatus,
      FindElementWithTag, AttributePathIB_Parser_GetEndpoint, AttributePathIB_Parser_GetCluster,
      AttributePathIB_Parser_GetAttribute, StatusIB_Parser_GetStatus, Except.bind,
      (by decide : (1:Nat) <<< 0 = 1), (by decide : (1:Nat) <<< 1 = 2),
      (by decide : (1:Nat) <<< 2 = 4), (by decide : (1:Nat) <<< 3 = 8),
      (by decide : (1:Nat) <<< 4 = 16),
      (by decide : (0:Nat) &&& 1 = 0), (by decide : (0:Nat) ||| 1 = 1),
      (by decide : (1:Nat) &&& 2 = 0), (by decide : (1:Nat) ||| 2 = 3),
      (by decide : (0:Nat) &&& 4 = 0), (by decide : (0:Nat) ||| 4 = 4),
      (by decide : (4:Nat) &&& 8 = 0), (by decide : (4:Nat) ||| 8 = 12),
      (by decide : (12:Nat) &&& 16 = 0), (by decide : (12:Nat) ||| 16 = 28),
      (by decide : (3:Nat) &&& 3 = 3)]

end Chip

namespace Chip

/-- C3 counterexample: a buffer in which tag number 5 — not a schema
field — is repeated at the top nesting level of a `WriteResponseMessage`
still passes `CheckSchemaValidity`, so a repeated tag does not fail with
the malformed-tag error regardless of which tag duplicates. -/
theorem c3_counterexample_repeated_unknown_tag :
    countContextTag 5
        [sampleWriteResponses, .uintVal (.context 5) 7, .uintVal (.context 5) 7] = 2 ∧
    (WriteResponseMessage_CheckSchemaValidity
        [sampleWriteResponses, .uintVal (.context 5) 7, .uintVal (.context 5) 7]).err
      = .noError := by
  exact ⟨by decide, by decide⟩

/-- C3 (amended): a tag number repeated at one nesting level is rejected
when it is a tag tracked in the presence bitmask (`kPath`/`kErrorStatus`
for `AttributeStatusIB`, `kWriteResponses` for `WriteResponseMessage`) —
the check never succeeds on such a buffer, and at the duplicate it
returns `CHIP_ERROR_INVALID_TLV_TAG`; repeated unknown or revision tags
are tolerated. -/
theorem c3_amended_tracked_duplicate_rejected :
    (∀ l, 2 ≤ countContextTag AttributeStatusIB.kPath l →
        (AttributeStatusIB_CheckSchemaValidity l).err ≠ .noError) ∧
    (∀ l, 2 ≤ countContextTag AttributeStatusIB.kErrorStatus l →
        (AttributeStatusIB_CheckSchemaValidity l).err ≠ .noError) ∧
    (∀ l, 2 ≤ countContextTag WriteResponseMessage.kWriteResponses l →
        (WriteResponseMessage_CheckSchemaValidity l).err ≠ .noError) ∧
    (AttributeStatusIB_CheckSchemaValidity [samplePath, samplePath]).err = .invalidTLVTag ∧
    (WriteResponseMessage_CheckSchemaValidity
        [sampleWriteResponses, sampleWriteResponses]).err = .invalidTLVTag := by
  refine ⟨?_, ?_, ?_, by decide, by decide⟩
  · intro l hc
    cases hloop : attributeStatusCheckLoop l 0 with
    | error e =>
      simp only [AttributeStatusIB_CheckSchemaValidity, hloop]
      exact attributeStatusCheckLoop_error_ne _ _ _ hloop
    | ok mask =>
      exfalso
      have h2 := attributeStatusCheckLoop_ok_count_path l 0 mask hloop
      simp [Nat.zero_testBit] at h2
      omega
  · intro l hc
    cases hloop : attributeStatusCheckLoop l 0 with
    | error e =>
      simp only [AttributeStatusIB_CheckSchemaValidity, hloop]
      exact attributeStatusCheckLoop_error_ne _ _ _ hloop
    | ok mask =>
      exfalso
      have h2 := attributeStatusCheckLoop_ok_count_status l 0 mask hloop
      simp [Nat.zero_testBit] at h2
      omega
  · intro l hc
    cases hloop : writeResponseCheckLoop l 0 with
    | error e =>
      simp only [WriteResponseMessage_CheckSchemaValidity, hloop]
      exact writeResponseCheckLoop_error_ne _ _ _ hloop
    | ok mask =>
      exfalso
      have h2 := writeResponseCheckLoop_ok_count l 0 mask hloop
      simp [Nat.zero_testBit] at h2
      omega

/-- Witness for the amended C3 theorem at a concrete duplicated path
field. -/
theorem c3_amended_witness :
    (AttributeStatusIB_CheckSchemaValidity [samplePath, samplePath]).err ≠ .noError :=
  c3_amended_tracked_duplicate_rejected.1 [samplePath, samplePath] (by decide)

/-- C4: an extra element with an unrecognized context-tag number at the
top nesting level changes neither the `CheckSchemaValidity` outcome nor
any typed field accessor, in either concrete message parser. -/
theorem c4_unknown_tag_tolerated :
    (∀ (l1 l2 : List TLVElement) (e : TLVElement) (n : Nat),
        e.getTag = .context n → n ≠ AttributeStatusIB.kPath →
        n ≠ AttributeStatusIB.kErrorStatus →
        AttributeStatusIB_CheckSchemaValidity (l1 ++ e :: l2)
            = AttributeStatusIB_CheckSchemaValidity (l1 ++ l2) ∧
        AttributeStatusIB_Parser_GetPath (l1 ++ e :: l2)
            = AttributeStatusIB_Parser_GetPath (l1 ++ l2) ∧
        AttributeStatusIB_Parser_GetErrorStatus (l1 ++ e :: l2)
            = AttributeStatusIB_Parser_GetErrorStatus (l1 ++ l2)) ∧
    (∀ (l1 l2 : List TLVElement) (e : TLVElement) (n : Nat),
        e.getTag = .context n → n ≠ WriteResponseMessage.kWriteResponses →
        n ≠ kInteractionModelRevisionTag →
        WriteResponseMessage_CheckSchemaValidity (l1 ++ e :: l2)
            = WriteResponseMessage_CheckSchemaValidity (l1 ++ l2) ∧
        WriteResponseMessage_Parser_GetWriteResponses (l1 ++ e :: l2)
            = WriteResponseMessage_Parser_GetWriteResponses (l1 ++ l2)) := by
  constructor
  · intro l1 l2 e n hg hn0 hn1
    refine ⟨?_, ?_, ?_⟩
    · simp only [AttributeStatusIB_CheckSchemaValidity,
        attributeStatusCheckLoop_skip_unknown e n hg hn0 hn1 l1 l2 0]
    · unfold AttributeStatusIB_Parser_GetPath
      rw [findElementWithTag_skip _ e
        (by rw [hg]; exact fun hc => hn0 (TLVTag.context.inj hc)) l1 l2]
    · unfold AttributeStatusIB_Parser_GetErrorStatus
      rw [findElementWithTag_skip _ e
        (by rw [hg]; exact fun hc => hn1 (TLVTag.context.inj hc)) l1 l2]
  · intro l1 l2 e n hg hn0 hn1
    refine ⟨?_, ?_⟩
    · simp only [WriteResponseMessage_CheckSchemaValidity,
        writeResponseCheckLoop_skip_unknown e n hg hn0 hn1 l1 l2 0]
    · unfold WriteResponseMessage_Parser_GetWriteResponses
      rw [findElementWithTag_skip _ e
        (by rw [hg]; exact fun hc => hn0 (TLVTag.context.inj hc)) l1 l2]

/-- Witness for C4 at a schema-valid buffer plus one unknown-tag
element, in both parsers. -/
theorem c4_unknown_tag_tolerated_witness :
    (AttributeStatusIB_CheckSchemaValidity ([samplePath, sampleStatus] ++ .uintVal (.context 5) 7 :: [])
        = AttributeStatusIB_CheckSchemaValidity ([samplePath, sampleStatus] ++ []) ∧
      AttributeStatusIB_Parser_GetPath ([samplePath, sampleStatus] ++ .uintVal (.context 5) 7 :: [])
        = AttributeStatusIB_Parser_GetPath ([samplePath, sampleStatus] ++ []) ∧
      AttributeStatusIB_Parser_GetErrorStatus ([samplePath, sampleStatus] ++ .uintVal (.context 5) 7 :: [])
        = AttributeStatusIB_Parser_GetErrorStatus ([samplePath, sampleStatus] ++ [])) ∧
    (WriteResponseMessage_CheckSchemaValidity ([sampleWriteResponses] ++ .uintVal (.context 7) 9 :: [])
        = WriteResponseMessage_CheckSchemaValidity ([sampleWriteResponses] ++ []) ∧
      WriteResponseMessage_Parser_GetWriteResponses ([sampleWriteResponses] ++ .uintVal (.context 7) 9 :: [])
        = WriteResponseMessage_Parser_GetWriteResponses ([sampleWriteResponses] ++ [])) :=
  ⟨c4_unknown_tag_tolerated.1 [samplePath, sampleStatus] [] (.uintVal (.context 5) 7) 5
      rfl (by decide) (by decide),
   c4_unknown_tag_tolerated.2 [sampleWriteResponses] [] (.uintVal (.context 7) 9) 7
      rfl (by decide) (by decide)⟩

/-- C5 counterexample: a `WriteResponseMessage` buffer containing an
element with a non-context (profile) tag still passes
`CheckSchemaValidity` — that parser skips such elements instead of
rejecting them. -/
theorem c5_counterexample_noncontext_skipped :
    IsContextTag (TLVElement.uintVal (.profile 1 2) 7).getTag = false ∧
    (WriteResponseMessage_CheckSchemaValidity
        [sampleWriteResponses, .uintVal (.profile 1 2) 7]).err = .noError := by
  exact ⟨rfl, by decide⟩

/-- C5 (amended): `AttributeStatusIB::Parser::CheckSchemaValidity` never
succeeds on a level containing a non-context-tagged element (and rejects
it with `CHIP_ERROR_INVALID_TLV_TAG` when the iteration reaches it),
while `WriteResponseMessage::Parser::CheckSchemaValidity` skips such
elements with no effect on its verdict. -/
theorem c5_amended_noncontext_handling :
    (∀ (l1 l2 : List TLVElement) (e : TLVElement), IsContextTag e.getTag = false →
        (AttributeStatusIB_CheckSchemaValidity (l1 ++ e :: l2)).err ≠ .noError) ∧
    (∀ (l1 l2 : List TLVElement) (e : TLVElement), IsContextTag e.getTag = false →
        WriteResponseMessage_CheckSchemaValidity (l1 ++ e :: l2)
          = WriteResponseMessage_CheckSchemaValidity (l1 ++ l2)) ∧
    (AttributeStatusIB_CheckSchemaValidity [.uintVal (.profile 1 2) 7]).err
      = .invalidTLVTag := by
  refine ⟨?_, ?_, by decide⟩
  · intro l1 l2 e hg
    cases hloop : attributeStatusCheckLoop (l1 ++ e :: l2) 0 with
    | error er =>
      simp only [AttributeStatusIB_CheckSchemaValidity, hloop]
      exact attributeStatusCheckLoop_error_ne _ _ _ hloop
    | ok mask =>
      exact absurd hloop (attributeStatusCheckLoop_noncontext_not_ok e hg l1 l2 0 mask)
  · intro l1 l2 e hg
    simp only [WriteResponseMessage_CheckSchemaValidity,
      writeResponseCheckLoop_skip_noncontext e hg l1 l2 0]

/-- Witness for the amended C5 theorem at concrete buffers. -/
theorem c5_amended_witness :
    (AttributeStatusIB_CheckSchemaValidity ([samplePath] ++ .uintVal (.profile 1 2) 7 :: [])).err
      ≠ .noError ∧
    WriteResponseMessage_CheckSchemaValidity ([sampleWriteResponses] ++ .uintVal (.profile 1 2) 7 :: [])
      = WriteResponseMessage_CheckSchemaValidity ([sampleWriteResponses] ++ []) :=
  ⟨c5_amended_noncontext_handling.1 [samplePath] [] (.uintVal (.profile 1 2) 7) rfl,
   c5_amended_noncontext_handling.2.1 [sampleWriteResponses] [] (.uintVal (.profile 1 2) 7) rfl⟩

/-- C6 counterexample: on an empty container both parsers return the
missing-required-field error without having reached their
`reader.ExitContainer` call — an error return path on which the entered
container is not exited. -/
theorem c6_counterexample_error_path_no_exit :
    AttributeStatusIB_CheckSchemaValidity [] = ⟨.endOfTLV, false⟩ ∧
    WriteResponseMessage_CheckSchemaValidity [] = ⟨.imMalformedWriteResponseMessage, false⟩ := by
  exact ⟨by decide, by decide⟩

/-- C6 (amended): `CheckSchemaValidity` exits the bound container (via
`ExitContainer` on its private reader copy) exactly on the success path;
every error return — invalid tag, duplicate tag, nested-check failure,
missing required field — leaves the function without the exit call.  The
caller's own reader is unaffected either way, since only the private
copy is iterated. -/
theorem c6_amended_exit_iff_success (elems : List TLVElement) :
    ((AttributeStatusIB_CheckSchemaValidity elems).exitedContainer = true ↔
      (AttributeStatusIB_CheckSchemaValidity elems).err = .noError) ∧
    ((WriteResponseMessage_CheckSchemaValidity elems).exitedContainer = true ↔
      (WriteResponseMessage_CheckSchemaValidity elems).err = .noError) := by
  constructor
  · cases hloop : attributeStatusCheckLoop elems 0 with
    | error e =>
      simp only [AttributeStatusIB_CheckSchemaValidity, hloop]
      have hne := attributeStatusCheckLoop_error_ne _ _ _ hloop
      simp [hne]
    | ok mask =>
      simp only [AttributeStatusIB_CheckSchemaValidity, hloop]
      split
      · simp
      · simp
  · cases hloop : writeResponseCheckLoop elems 0 with
    | error e =>
      simp only [WriteResponseMessage_CheckSchemaValidity, hloop]
      have hne := writeResponseCheckLoop_error_ne _ _ _ hloop
      simp [hne]
    | ok mask =>
      simp only [WriteResponseMessage_CheckSchemaValidity, hloop]
      split
      · simp
      · simp

end Chip

namespace Chip

/-- Sample builders and writer used as concrete instances. -/
def sampleErroredASIBBuilder : AttributeStatusIB_Builder :=
  ⟨.invalidTLVTag, ⟨.noError⟩, ⟨.noError⟩⟩

/-- Sample errored `WriteResponseMessage` builder. -/
def sampleErroredWRMBuilder : WriteResponseMessage_Builder :=
  ⟨.invalidTLVTag, ⟨.noError⟩⟩

/-- Writer with no open container and nothing written. -/
def emptyWriter : TLVWriter := ⟨[], []⟩

/-- C7: on a builder whose sticky error is already set to `e`, every
subsequent operation — `CreatePath`, `CreateErrorStatus`,
`CreateWriteResponses`, `EndOfWriteResponseMessage` — performs no write
(the writer is returned unchanged), leaves the builder state (hence its
error, still `e`) unchanged, and a create call returns the previously
issued nested builder member. -/
theorem c7_sticky_error_noops (b : AttributeStatusIB_Builder)
    (b2 : WriteResponseMessage_Builder) (w : TLVWriter) (e : ChipError)
    (hb : b.mError = e) (hb2 : b2.mError = e) (he : e ≠ .noError) :
    b.CreatePath w = (w, b, b.mPath) ∧
    b.CreateErrorStatus w = (w, b, b.mErrorStatus) ∧
    b2.CreateWriteResponses w = (w, b2, b2.mWriteResponses) ∧
    b2.EndOfWriteResponseMessage w = (w, b2) ∧
    ((b.CreatePath w).2.1).mError = e ∧
    ((b2.EndOfWriteResponseMessage w).2).mError = e := by
  subst hb
  refine ⟨?_, ?_, ?_, ?_, ?_, ?_⟩ <;>
    simp [AttributeStatusIB_Builder.CreatePath, AttributeStatusIB_Builder.CreateErrorStatus,
      WriteResponseMessage_Builder.CreateWriteResponses,
      WriteResponseMessage_Builder.EndOfWriteResponseMessage, hb2, he]

/-- Witness for C7 at a concrete errored builder pair. -/
theorem c7_sticky_error_noops_witness :
    sampleErroredASIBBuilder.CreatePath emptyWriter
      = (emptyWriter, sampleErroredASIBBuilder, sampleErroredASIBBuilder.mPath) ∧
    sampleErroredASIBBuilder.CreateErrorStatus emptyWriter
      = (emptyWriter, sampleErroredASIBBuilder, sampleErroredASIBBuilder.mErrorStatus) ∧
    sampleErroredWRMBuilder.CreateWriteResponses emptyWriter
      = (emptyWriter, sampleErroredWRMBuilder, sampleErroredWRMBuilder.mWriteResponses) ∧
    sampleErroredWRMBuilder.EndOfWriteResponseMessage emptyWriter
      = (emptyWriter, sampleErroredWRMBuilder) ∧
    ((sampleErroredASIBBuilder.CreatePath emptyWriter).2.1).mError = .invalidTLVTag ∧
    ((sampleErroredWRMBuilder.EndOfWriteResponseMessage emptyWriter).2).mError = .invalidTLVTag :=
  c7_sticky_error_noops sampleErroredASIBBuilder sampleErroredWRMBuilder emptyWriter
    .invalidTLVTag rfl rfl (by decide)

/-- C8: with no prior error, `EndOfWriteResponseMessage` appends the
fixed-numbered protocol-revision tag as the last element of the open
message container and then closes it, while `EndOfAttributeStatusIB`
only closes the container, appending nothing — for any open container
frame and any already-written contents `l`. -/
theorem c8_end_of_message_revision_tag (bw : WriteResponseMessage_Builder)
    (ba : AttributeStatusIB_Builder) (t : TLVTag) (ty : TLVContainerType)
    (l : List TLVElement) (fs : List (TLVTag × TLVContainerType × List TLVElement))
    (root : List TLVElement) (hw : bw.mError = .noError) (ha : ba.mError = .noError) :
    bw.EndOfWriteResponseMessage ⟨(t, ty, l) :: fs, root⟩
      = (TLVWriter.put ⟨fs, root⟩
          (.container t ty
            (l ++ [.uintVal (.context kInteractionModelRevisionTag)
                    kInteractionModelRevision])), bw) ∧
    ba.EndOfAttributeStatusIB ⟨(t, ty, l) :: fs, root⟩
      = (TLVWriter.put ⟨fs, root⟩ (.container t ty l), ba) := by
  obtain ⟨bwe, bwn⟩ := bw
  obtain ⟨bae, ban, bas⟩ := ba
  simp only at hw ha
  subst hw
  subst ha
  constructor
  · simp [WriteResponseMessage_Builder.EndOfWriteResponseMessage,
      EncodeInteractionModelRevision, TLVWriter.put, TLVWriter.endContainer]
  · simp [AttributeStatusIB_Builder.EndOfAttributeStatusIB, builderEndOfContainer,
      TLVWriter.put, TLVWriter.endContainer]

/-- Witness for C8 with a concrete open frame. -/
theorem c8_end_of_message_revision_tag_witness :
    WriteResponseMessage_Builder.EndOfWriteResponseMessage ⟨.noError, ⟨.noError⟩⟩
        ⟨[(.anonymous, .structType, [sampleWriteResponses])], []⟩
      = (TLVWriter.put ⟨[], []⟩
          (.container .anonymous .structType
            ([sampleWriteResponses] ++
              [.uintVal (.context kInteractionModelRevisionTag)
                kInteractionModelRevision])), ⟨.noError, ⟨.noError⟩⟩) ∧
    AttributeStatusIB_Builder.EndOfAttributeStatusIB ⟨.noError, ⟨.noError⟩, ⟨.noError⟩⟩
        ⟨[(.anonymous, .structType, [samplePath, sampleStatus])], []⟩
      = (TLVWriter.put ⟨[], []⟩
          (.container .anonymous .structType [samplePath, sampleStatus]),
         ⟨.noError, ⟨.noError⟩, ⟨.noError⟩⟩) :=
  c8_end_of_message_revision_tag ⟨.noError, ⟨.noError⟩⟩ ⟨.noError, ⟨.noError⟩, ⟨.noError⟩⟩
    .anonymous .structType [sampleWriteResponses] [] [] rfl rfl
    |>.imp (fun h => by rw [h]) (fun _ => c8_end_of_message_revision_tag
      ⟨.noError, ⟨.noError⟩⟩ ⟨.noError, ⟨.noError⟩, ⟨.noError⟩⟩
      .anonymous .structType [samplePath, sampleStatus] [] [] rfl rfl |>.2)

/-- C9: `CheckSchemaValidity` is a frame-preserving operation on the
parser: the bound reader state it hands back is the one it was given
(the function iterates only the private copy made by `reader.Init`), so
every typed accessor returns the same value before and after the call,
for both concrete parsers. -/
theorem c9_check_preserves_reader (elems elems2 : List TLVElement) :
    (AttributeStatusIB_Parser_CheckAndState elems).2 = elems ∧
    AttributeStatusIB_Parser_GetPath (AttributeStatusIB_Parser_CheckAndState elems).2
      = AttributeStatusIB_Parser_GetPath elems ∧
    AttributeStatusIB_Parser_GetErrorStatus (AttributeStatusIB_Parser_CheckAndState elems).2
      = AttributeStatusIB_Parser_GetErrorStatus elems ∧
    (WriteResponseMessage_Parser_CheckAndState elems2).2 = elems2 ∧
    WriteResponseMessage_Parser_GetWriteResponses
        (WriteResponseMessage_Parser_CheckAndState elems2).2
      = WriteResponseMessage_Parser_GetWriteResponses elems2 := by
  exact ⟨rfl, rfl, rfl, rfl, rfl⟩

/-- C10: on a socket with an attached descriptor, `ReleaseFD` returns
that descriptor, after which `HasFD` is false and `GetFD` is
`kInvalidFd` (−1); the pending-event flags, the registered callback, its
data and the shared state are untouched. -/
theorem c10_releaseFD (s : WatchableSocketState) (fd : Int)
    (hfd : s.mFD = fd) (hhas : WatchableSocket_HasFD s = true) :
    (WatchableSocket_ReleaseFD s).1 = fd ∧
    WatchableSocket_HasFD (WatchableSocket_ReleaseFD s).2 = false ∧
    WatchableSocket_GetFD (WatchableSocket_ReleaseFD s).2 = kInvalidFd ∧
    kInvalidFd = -1 ∧
    (WatchableSocket_ReleaseFD s).2.mPendingIo = s.mPendingIo ∧
    (WatchableSocket_ReleaseFD s).2.mCallback = s.mCallback ∧
    (WatchableSocket_ReleaseFD s).2.mCallbackData = s.mCallbackData ∧
    (WatchableSocket_ReleaseFD s).2.mSharedState = s.mSharedState := by
  refine ⟨hfd, ?_, rfl, rfl, rfl, rfl, rfl, rfl⟩
  simp [WatchableSocket_HasFD, WatchableSocket_ReleaseFD, kInvalidFd]

/-- Witness for C10 at a concrete attached socket. -/
theorem c10_releaseFD_witness :
    (WatchableSocket_ReleaseFD ⟨3, 5, 1, 7, 2⟩).1 = 3 ∧
    WatchableSocket_HasFD (WatchableSocket_ReleaseFD ⟨3, 5, 1, 7, 2⟩).2 = false ∧
    WatchableSocket_GetFD (WatchableSocket_ReleaseFD ⟨3, 5, 1, 7, 2⟩).2 = kInvalidFd ∧
    kInvalidFd = -1 ∧
    (WatchableSocket_ReleaseFD ⟨3, 5, 1, 7, 2⟩).2.mPendingIo = (5 : Nat) ∧
    (WatchableSocket_ReleaseFD ⟨3, 5, 1, 7, 2⟩).2.mCallback = (1 : Nat) ∧
    (WatchableSocket_ReleaseFD ⟨3, 5, 1, 7, 2⟩).2.mCallbackData = (7 : Int) ∧
    (WatchableSocket_ReleaseFD ⟨3, 5, 1, 7, 2⟩).2.mSharedState = (2 : Nat) :=
  c10_releaseFD ⟨3, 5, 1, 7, 2⟩ 3 rfl (by decide)

end Chip

namespace Chip

/-- Witness for C2 at the spec scenario values: path
{endpoint 1, cluster 6, attribute 0} and error-status {status 0x86}. -/
theorem c2_roundtrip_attributeStatusIB_witness :
    (AttributeStatusIB_CheckSchemaValidity (builtAttributeStatusIBElems 1 6 0 134)).err
      = .noError ∧
    (AttributeStatusIB_Parser_GetPath (builtAttributeStatusIBElems 1 6 0 134)).bind
        AttributePathIB_Parser_GetEndpoint = .ok 1 ∧
    (AttributeStatusIB_Parser_GetPath (builtAttributeStatusIBElems 1 6 0 134)).bind
        AttributePathIB_Parser_GetCluster = .ok 6 ∧
    (AttributeStatusIB_Parser_GetPath (builtAttributeStatusIBElems 1 6 0 134)).bind
        AttributePathIB_Parser_GetAttribute = .ok 0 ∧
    (AttributeStatusIB_Parser_GetErrorStatus (builtAttributeStatusIBElems 1 6 0 134)).bind
        StatusIB_Parser_GetStatus = .ok 134 :=
  c2_roundtrip_attributeStatusIB 1 6 0 134

/-- Witness for the amended C6 theorem at a concrete valid buffer. -/
theorem c6_amended_exit_iff_success_witness :
    ((AttributeStatusIB_CheckSchemaValidity [samplePath, sampleStatus]).exitedContainer = true ↔
      (AttributeStatusIB_CheckSchemaValidity [samplePath, sampleStatus]).err = .noError) ∧
    ((WriteResponseMessage_CheckSchemaValidity [samplePath, sampleStatus]).exitedContainer = true ↔
      (WriteResponseMessage_CheckSchemaValidity [samplePath, sampleStatus]).err = .noError) :=
  c6_amended_exit_iff_success [samplePath, sampleStatus]

/-- Witness for C9 at concrete parser states. -/
theorem c9_check_preserves_reader_witness :
    (AttributeStatusIB_Parser_CheckAndState [samplePath, sampleStatus]).2
      = [samplePath, sampleStatus] ∧
    AttributeStatusIB_Parser_GetPath
        (AttributeStatusIB_Parser_CheckAndState [samplePath, sampleStatus]).2
      = AttributeStatusIB_Parser_GetPath [samplePath, sampleStatus] ∧
    AttributeStatusIB_Parser_GetErrorStatus
        (AttributeStatusIB_Parser_CheckAndState [samplePath, sampleStatus]).2
      = AttributeStatusIB_Parser_GetErrorStatus [samplePath, sampleStatus] ∧
    (WriteResponseMessage_Parser_CheckAndState [sampleWriteResponses]).2
      = [sampleWriteResponses] ∧
    WriteResponseMessage_Parser_GetWriteResponses
        (WriteResponseMessage_Parser_CheckAndState [sampleWriteResponses]).2
      = WriteResponseMessage_Parser_GetWriteResponses [sampleWriteResponses] :=
  c9_check_preserves_reader [samplePath, sampleStatus] [sampleWriteResponses]

end Chip
